import Mathlib

/-!
Verification of the SCPI instrument-control engine (krgough/scpiExample).

The Python sources `scpi_project/scpi_module_34465a.py` and
`scpi_project/scpi_module_DMM6500.py` are shallowly embedded below:

* raw bytes are `List Nat` (each entry a byte value);
* Python exceptions are `Except.error` values, or `none` where the caller
  treats failure as an absent value;
* the socket is replaced by explicit data: the list of byte chunks that
  successive `recv` calls return, or boolean outcomes of connect attempts;
* Python builtins that the code relies on (`int()`, slicing, `str.split`,
  `str.strip`) are modelled byte-for-byte in `pyInt?`, `pySlice`,
  `splitComma`, `stripChars` below.
-/

set_option autoImplicit false

namespace Scpi

/-- The ASCII bytes 48–57, exactly the characters `int()` accepts as digits
for a `bytes` argument. -/
def isDigitByte (b : Nat) : Bool := 48 ≤ b && b ≤ 57

/-- The ASCII whitespace bytes that Python `int()` and `strip()` ignore at
either end: tab (9) through carriage return (13) and space (32). -/
def isSpaceByte (b : Nat) : Bool := b == 32 || (9 ≤ b && b ≤ 13)

/-- Value of a run of ASCII digit bytes, most significant first, as computed
by Python `int()` once sign and whitespace are handled. -/
def digitsToNat (l : List Nat) : Nat := l.foldl (fun acc b => acc * 10 + (b - 48)) 0

/-- Tail of the digit run accepted by Python `int()`: digits, with single
underscores (byte 95) allowed only between two digits. -/
def pyIntTail : List Nat → Bool
  | [] => true
  | [b] => isDigitByte b
  | b :: c :: rest =>
    if b == 95 then isDigitByte c && pyIntTail (c :: rest)
    else isDigitByte b && pyIntTail (c :: rest)

/-- Digit run accepted by Python `int()`: nonempty, starts with a digit,
underscores only between digits. -/
def pyIntDigits : List Nat → Bool
  | [] => false
  | b :: rest => isDigitByte b && pyIntTail rest

/-- Python `strip()` on a byte string: drop ASCII whitespace at both ends. -/
def pyStripBytes (l : List Nat) : List Nat :=
  ((l.dropWhile isSpaceByte).reverse.dropWhile isSpaceByte).reverse

/-- Python `int()` over ASCII bytes: optional surrounding whitespace, one
optional sign, then a digit run.  `none` models the `ValueError` raise. -/
def pyInt? (bs : List Nat) : Option Int :=
  match pyStripBytes bs with
  | [] => none
  | b :: ds =>
    if b == 43 then
      if pyIntDigits ds then some (digitsToNat (ds.filter (· != 95))) else none
    else if b == 45 then
      if pyIntDigits ds then some (-(digitsToNat (ds.filter (· != 95)) : Int)) else none
    else if pyIntDigits (b :: ds) then some (digitsToNat ((b :: ds).filter (· != 95)))
    else none

/-- Python slice `l[a:b]` for nonnegative bounds (both ends clamp). -/
def pySlice (l : List Nat) (a b : Nat) : List Nat := (l.take b).drop a

/-- Python slice `l[-1:]`: the last byte as a one-element list, `[]` when
`l` is empty. -/
def pyLastByte (l : List Nat) : List Nat := l.drop (l.length - 1)

/-- Embedding of `parse_block_header` (scpi_module_34465a.py, lines 357–375).
`num_digits = int(block[1:2])`, `data_start = num_digits + 2`,
`num_expected_bytes = int(block[2:data_start])`, and the actual byte count
is measured after stripping one trailing newline when present.  The two
`int()` calls raise `ValueError` on failure, which propagates to the caller
(the `except IndexError` clause never fires, since Python byte-string
slicing is total); both raises are `Except.error` here.  A `num_digits`
that parses from a single byte is always in 0–9, so `data_start` is a `Nat`.
The `scpiProject/scpi_module_34465a.py` copy of this function differs only
in what it does after catching the (unreachable) `IndexError`. -/
def parse_block_header (block : List Nat) : Except String (Nat × Int × Nat) :=
  match pyInt? (pySlice block 1 2) with
  | none => Except.error "ValueError: invalid literal for int() in block[1:2]"
  | some nd =>
    let data_start : Nat := nd.toNat + 2
    match pyInt? (pySlice block 2 data_start) with
    | none => Except.error "ValueError: invalid literal for int() in block[2:data_start]"
    | some num_expected =>
      let num_actual : Nat :=
        if pyLastByte block = [10] then ((block.take (block.length - 1)).drop data_start).length
        else (block.drop data_start).length
      Except.ok (data_start, num_expected, num_actual)

/-- Embedding of `ScpiDevice.write` payload preparation
(scpi_module_34465a.py line 88, identically `ScpiDevice._write` in
scpi_module_DMM6500.py): `payload = (payload + '\n').encode()`.  The result
is the exact character sequence handed to `sock.send`. -/
def write_payload (payload : String) : List Char := (payload ++ "\n").data

/-- Test whether a command string already ends with the newline terminator
(Python `payload.endswith('\n')`). -/
def endsWithNewline (s : String) : Bool := s.data.getLast? == some (Char.ofNat 10)

/-- Embedding of `ScpiDevice.connect` (both modules, lines 54–69/55–69).
`oc i` is the outcome of the `(i+1)`-th `_socket_connect()` attempt.  The
body runs one attempt, then a single `if not conn and attempts < max_attempts`
retry after a 30 s sleep — an `if`, not a loop.  The source contains no
`raise`; the `Except` result type makes that absence expressible, and the
returned pair is (final connect result, number of attempts made). -/
def connect (oc : Nat → Bool) : Except String (Bool × Nat) :=
  let conn := oc 0
  let attempts := 1
  let max_attempts := 5
  if conn = false ∧ attempts < max_attempts then
    Except.ok (oc 1, attempts + 1)
  else
    Except.ok (conn, attempts)

end Scpi

namespace Scpi

/-- Helper: a list shorter than 2 has an empty `[1:2]` slice. -/
theorem pySlice_one_two_nil (block : List Nat) (h : block.length < 2) :
    pySlice block 1 2 = [] := by
  match block, h with
  | [], _ => rfl
  | [a], _ => rfl

/-- C4: for every input buffer shorter than 2 bytes, and for every buffer
whose declared-length digits do not parse as a Python integer, the
block-header decoder fails with the corresponding `ValueError` signalled to
the caller as a decode failure (an `Except.error` value, never an
out-of-bounds access: `parse_block_header` is a total function on all byte
lists). -/
theorem parse_block_header_rejects_malformed (block : List Nat) :
    (block.length < 2 →
      parse_block_header block =
        Except.error "ValueError: invalid literal for int() in block[1:2]") ∧
    (∀ nd : Int, pyInt? (pySlice block 1 2) = some nd →
      pyInt? (pySlice block 2 (nd.toNat + 2)) = none →
      parse_block_header block =
        Except.error "ValueError: invalid literal for int() in block[2:data_start]") := by
  constructor
  · intro h
    have hs : pySlice block 1 2 = [] := pySlice_one_two_nil block h
    simp [parse_block_header, hs, pyInt?, pyStripBytes, pyIntDigits]
  · intro nd h1 h2
    simp [parse_block_header, h1, h2]

/-- Witness for C4 at the one-byte buffer `#`. -/
theorem parse_block_header_rejects_malformed_witness :
    parse_block_header [35] =
      Except.error "ValueError: invalid literal for int() in block[1:2]" :=
  (parse_block_header_rejects_malformed [35]).1 (by decide)

/-- C9 counterexample: a command that already ends with the newline
terminator is NOT sent unchanged — `(payload + '\n').encode()` appends
unconditionally, so `*RST\n` goes out as `*RST\n\n`. -/
theorem write_payload_not_idempotent_on_terminated :
    endsWithNewline "*RST\n" = true ∧
    write_payload "*RST\n" ≠ "*RST\n".data ∧
    write_payload "*RST\n" = "*RST\n\n".data := by
  refine ⟨by decide, by decide, by decide⟩

/-- C9 amended: the bytes written to the socket are always the command
followed by one additional newline, appended unconditionally; in particular
a command that already ends with the terminator is not sent unchanged but
gains a second newline. -/
theorem write_payload_always_appends (payload : String) :
    write_payload payload = payload.data ++ [Char.ofNat 10] ∧
    (endsWithNewline payload = true → write_payload payload ≠ payload.data) := by
  constructor
  · show (payload ++ "\n").data = payload.data ++ [Char.ofNat 10]
    rw [String.data_append]
  · intro _ hEq
    have hlen := congrArg List.length hEq
    simp [write_payload, String.data_append] at hlen

/-- Witness for C9 amended at `SYST:BEEP\n`. -/
theorem write_payload_always_appends_witness :
    write_payload "SYST:BEEP\n" ≠ "SYST:BEEP\n".data :=
  (write_payload_always_appends "SYST:BEEP\n").2 (by decide)

/-- C7 counterexample: when every connect attempt fails, `connect` makes
exactly 2 attempts (not between 2 and 5 followed by a raise) and returns
normally with `False` — it raises nothing, so no `ConnectionError` is
surfaced. -/
theorem connect_exhausted_returns_false :
    connect (fun _ => false) = Except.ok (false, 2) ∧
    (connect (fun _ => false)).isOk = true := by
  refine ⟨rfl, rfl⟩

/-- C7 amended: `connect` makes one TCP attempt (with the fixed 10 s socket
timeout); if and only if the first attempt fails it sleeps the fixed 30 s
backoff and retries exactly once, for at most 2 attempts total (the internal
`max_attempts = 5` is never reached because the retry is a single `if`);
when all attempts fail it returns `False` to the caller with the error
recorded on the device, raising no exception, and performs no further
automatic retry. -/
theorem connect_retry_budget (oc : Nat → Bool) :
    (oc 0 = true → connect oc = Except.ok (true, 1)) ∧
    (oc 0 = false → connect oc = Except.ok (oc 1, 2)) ∧
    (connect oc).isOk = true := by
  refine ⟨?_, ?_, ?_⟩
  · intro h; simp [connect, h]
  · intro h; simp [connect, h]
  · cases h : oc 0 <;> simp [connect, h, Except.isOk, Except.toBool]

/-- Witness for C7 amended: first attempt succeeds, one attempt total. -/
theorem connect_retry_budget_witness :
    connect (fun _ => true) = Except.ok (true, 1) :=
  (connect_retry_budget (fun _ => true)).1 (by decide)

end Scpi

namespace Scpi

/-- Embedding of the sample-count validation in `get_existing_data`
(scpi_module_34465a.py, lines 619–637).  `fileAlreadyPresent` is the
`file_exists(settings)` early return, `data` the series returned by
`read_data_with_fetch`, `num_samples` the requested count
`int(duration / sample_rate)`.  The result is `some data` exactly when the
data is handed to `write_data_to_file` (the data sink), `none` when the
run aborts or the count-mismatch branch only prints the validation error. -/
def get_existing_data (fileAlreadyPresent : Bool) (data : List String)
    (num_samples : Nat) : Option (List String) :=
  if fileAlreadyPresent then none
  else if data.length ≠ num_samples then none
  else some data

/-- C3: on a completed bulk fetch, a fetched series whose length differs
from the requested sample count is reported as a validation error and never
written to the output file; the data is written (unchanged) exactly when
the observed count equals the requested count. -/
theorem get_existing_data_validates (data : List String) (n : Nat) :
    (data.length ≠ n → get_existing_data false data n = none) ∧
    (get_existing_data false data n = some data ↔ data.length = n) := by
  constructor
  · intro h
    simp [get_existing_data, h]
  · constructor
    · intro h
      by_contra hne
      simp [get_existing_data, hne] at h
    · intro h
      simp [get_existing_data, h]

/-- Witness for C3: 999 fetched samples against a requested count of 1000
are not written to the sink. -/
theorem get_existing_data_validates_witness :
    get_existing_data false (List.replicate 999 "0.1") 1000 = none :=
  (get_existing_data_validates (List.replicate 999 "0.1") 1000).1
    (by rw [List.length_replicate]; omega)

/-- Embedding of the completion-polling loop of `trigger_and_fetch`
(scpi_module_34465a.py, lines 441–471).  Each loop-condition evaluation
performs one read of the operation-status register through
`get_std_op_reg_bit(4)` (lines 188–196), whose result is `some b` for a
readable register and `none` when the query failed (`AttributeError`
branch).  The loop body is `time.sleep(1)` and the condition is
`bit in [True, None]`, so the loop runs again on `some true` and on `none`
and exits only on `some false`.  `pollCount rs` is the number of register
reads performed before the loop exits when the successive reads return
`rs`; `none` means the reads were exhausted with the loop still polling. -/
def pollCount : List (Option Bool) → Option Nat
  | [] => none
  | r :: rest => if r = some false then some 1 else (pollCount rest).map (· + 1)

/-- C5 counterexample: an indeterminate register read does NOT exit the
polling loop.  With reads `[indeterminate, idle]` the controller polls
twice (the claim predicts one poll), and with the single read
`[indeterminate]` the loop is still polling. -/
theorem pollCount_continues_on_indeterminate :
    pollCount [none, some false] = some 2 ∧
    pollCount [none] = none ∧
    some 2 ≠ (some 1 : Option Nat) := by
  refine ⟨rfl, rfl, by decide⟩

/-- C5 amended: after triggering, the controller polls the operation-status
register once per fixed 1-second sleep and exits the loop exactly at the
first poll on which the Measuring bit (bit 4) reads false; a poll that
reads true or is indeterminate (register unreadable) continues the loop.
Hence the poll count is the index of the first definite-false read plus
one, and an instrument reporting Measuring for 3 polls and then Idle is
polled exactly 4 times before the bulk fetch is issued. -/
theorem pollCount_exits_on_first_false (rs : List (Option Bool)) :
    pollCount rs = (rs.findIdx? (fun r => r == some false)).map (· + 1) ∧
    pollCount (List.replicate 3 (some true) ++ [some false]) = some 4 := by
  refine ⟨?_, rfl⟩
  induction rs with
  | nil => rfl
  | cons r rest ih =>
    by_cases h : r = some false
    · simp [pollCount, h, List.findIdx?_cons]
    · simp [pollCount, h, List.findIdx?_cons, ih, Option.map_map]

/-- Outcome of one iteration of the incremental-drain loop in `read_data`:
a socket timeout while reading the block, a block that contributes no
samples (`block == b''` or a zero declared length), or a parsed block
contributing `samples` comma-separated data points. -/
inductive DrainOutcome
  | timeout
  | emptyBlock
  | chunk (samples : Nat)
deriving DecidableEq

/-- State threaded through the `read_data` loop: accumulated sample count
(`data_count`), number of `device.connect()` reconnects performed, and
number of `R? <n>` chunk requests written. -/
structure DrainState where
  data_count : Nat
  reconnects : Nat
  requests : Nat
deriving DecidableEq

/-- Embedding of one iteration of the `while data_count < expected_points`
loop of `read_data` (scpi_module_34465a.py, lines 378–438).  Every
iteration first writes one `R? <n>` request.  On `socket.timeout` the
handler sets `block = b''` and calls `device.connect()` once, so the
iteration adds one reconnect and leaves `data_count` unchanged; an empty
or zero-length block only prints; a parsed block appends its samples. -/
def drain_step (s : DrainState) : DrainOutcome → DrainState
  | .timeout =>
    { s with requests := s.requests + 1, reconnects := s.reconnects + 1 }
  | .emptyBlock => { s with requests := s.requests + 1 }
  | .chunk k =>
    { s with requests := s.requests + 1, data_count := s.data_count + k }

/-- The `read_data` loop itself: it keeps iterating while
`data_count < expected_points`, consuming one outcome per iteration, and
stops when the accumulated count reaches the requested count (or when the
supplied outcomes are exhausted).  Returns the final state together with
the list of outcomes actually consumed. -/
def read_data_loop (expected : Nat) :
    List DrainOutcome → DrainState → DrainState × List DrainOutcome
  | [], s => (s, [])
  | o :: os, s =>
    if expected ≤ s.data_count then (s, [])
    else
      let r := read_data_loop expected os (drain_step s o)
      (r.1, o :: r.2)

/-- Samples contributed by one drain outcome. -/
def chunkSamples : DrainOutcome → Nat
  | .chunk k => k
  | _ => 0

/-- Whether a drain outcome was a socket timeout. -/
def isTimeoutOutcome : DrainOutcome → Bool
  | .timeout => true
  | _ => false

/-- Run of `read_data` from the initial state (no data, no reconnects, no
requests yet). -/
def drainRun (expected : Nat) (os : List DrainOutcome) :
    DrainState × List DrainOutcome :=
  read_data_loop expected os { data_count := 0, reconnects := 0, requests := 0 }

/-- Invariant of the drain loop from an arbitrary start state: the final
count is the start count plus the samples of the consumed chunks, each
timeout contributes exactly one reconnect, each iteration sends exactly one
request, and the loop stops before exhausting the outcomes only once the
requested count is reached. -/
theorem read_data_loop_invariant (expected : Nat) :
    ∀ (os : List DrainOutcome) (s : DrainState),
      (read_data_loop expected os s).1.data_count =
        s.data_count + (((read_data_loop expected os s).2).map chunkSamples).sum ∧
      (read_data_loop expected os s).1.reconnects =
        s.reconnects + ((read_data_loop expected os s).2).countP isTimeoutOutcome ∧
      (read_data_loop expected os s).1.requests =
        s.requests + ((read_data_loop expected os s).2).length ∧
      (((read_data_loop expected os s).2).length < os.length →
        expected ≤ (read_data_loop expected os s).1.data_count) := by
  intro os
  induction os with
  | nil =>
    intro s
    simp [read_data_loop]
  | cons o os ih =>
    intro s
    by_cases h : expected ≤ s.data_count
    · simp [read_data_loop, h]
    · have ihs := ih (drain_step s o)
      simp only [read_data_loop, if_neg h]
      refine ⟨?_, ?_, ?_, ?_⟩
      · rw [List.map_cons, List.sum_cons, ihs.1]
        cases o <;> (simp [drain_step, chunkSamples]; try omega)
      · rw [List.countP_cons, ihs.2.1]
        cases o <;> (simp [drain_step, isTimeoutOutcome]; try omega)
      · rw [List.length_cons, ihs.2.2.1]
        cases o <;> (simp [drain_step]; try omega)
      · intro hlen
        simp only [List.length_cons, Nat.add_lt_add_iff_right] at hlen
        exact ihs.2.2.2 hlen

/-- C6: in the incremental-drain loop, a socket timeout during a chunk
causes exactly one reconnect (reconnects count the timeouts one-for-one)
and exactly one retry of the same chunk request (every iteration, including
the one after a timeout, issues exactly one `R? <n>` request, and the
accumulated `data_count` is untouched by the timeout, so the loop resumes
where it was rather than restarting or aborting); the loop terminates
before exhausting the instrument's responses only once the accumulated
sample count reaches the requested count; and the accumulated total equals
the sum of the samples of all successfully drained chunks. -/
theorem read_data_drain_accounting (expected : Nat) (os : List DrainOutcome) :
    (drainRun expected os).1.data_count =
      (((drainRun expected os).2).map chunkSamples).sum ∧
    (drainRun expected os).1.reconnects =
      ((drainRun expected os).2).countP isTimeoutOutcome ∧
    (drainRun expected os).1.requests = ((drainRun expected os).2).length ∧
    (∀ s : DrainState, (drain_step s .timeout).data_count = s.data_count ∧
      (drain_step s .timeout).reconnects = s.reconnects + 1 ∧
      (drain_step s .timeout).requests = s.requests + 1) ∧
    (((drainRun expected os).2).length < os.length →
      expected ≤ (drainRun expected os).1.data_count) := by
  have h := read_data_loop_invariant expected os
    { data_count := 0, reconnects := 0, requests := 0 }
  refine ⟨?_, ?_, ?_, ?_, h.2.2.2⟩
  · simpa [drainRun] using h.1
  · simpa [drainRun] using h.2.1
  · simpa [drainRun] using h.2.2.1
  · intro s
    exact ⟨rfl, rfl, rfl⟩

/-- Witness for C6: requested count 5; a 3-sample chunk, a timeout, then a
4-sample chunk.  The run consumes all three outcomes, accumulates 7 = 3 + 4
samples, performs exactly one reconnect and three requests. -/
theorem read_data_drain_accounting_witness :
    (drainRun 5 [DrainOutcome.chunk 3, DrainOutcome.timeout,
        DrainOutcome.chunk 4]).1 =
      { data_count := 7, reconnects := 1, requests := 3 } ∧
    (5 : Nat) ≤ 7 := by
  have h := read_data_drain_accounting 5
    [DrainOutcome.chunk 3, DrainOutcome.timeout, DrainOutcome.chunk 4]
  refine ⟨?_, by decide⟩
  have h1 := h.1
  revert h1
  decide

end Scpi

namespace Scpi

/-- Device-side observable state of `ScpiDevice`: the `self.error`
attribute and the number of `sock.recv` calls performed. -/
structure Dev where
  error : Option String
  reads : Nat
deriving DecidableEq

/-- Embedding of `ScpiDevice.write` success/failure bookkeeping
(scpi_module_34465a.py, lines 84–95): on a successful `sock.send` the
method clears `self.error` and returns `True`; on `socket.error` it records
the message and returns `False`.  `writeOk` is whether the send succeeds. -/
def dev_write (writeOk : Bool) (d : Dev) : Bool × Dev :=
  if writeOk then (true, { d with error := none })
  else (false, { d with error := some "ERROR: Socket send error." })

/-- Embedding of `ScpiDevice._read` (lines 97–110): one `sock.recv` call;
on success it clears `self.error` and returns `(True, value)`, on
`socket.error` it records the message and returns `(False, None)`.
`readRes` is the bytes the recv would deliver, `none` for a socket error. -/
def dev_read (readRes : Option (List Nat)) (d : Dev) :
    (Bool × Option (List Nat)) × Dev :=
  match readRes with
  | some v => ((true, some v), { error := none, reads := d.reads + 1 })
  | none =>
    ((false, none),
      { error := some "ERROR: socket recieve error.", reads := d.reads + 1 })

/-- Embedding of `ScpiDevice.get` (lines 112–122): write the query payload;
if the write fails return `(False, None)` without reading, otherwise
perform exactly one read and return its result. -/
def dev_get (writeOk : Bool) (readRes : Option (List Nat)) (d : Dev) :
    (Bool × Option (List Nat)) × Dev :=
  let w := dev_write writeOk d
  if w.1 = false then ((false, none), w.2)
  else dev_read readRes w.2

/-- C10: if the socket write of the query fails, `get` returns
`(False, None)` without attempting a socket read (the read count is
unchanged, and the send error is recorded on the device); it returns
`(True, bytes)` exactly when both the write and the read succeed; and when
the write succeeds but the read fails it returns `(False, None)` with the
receive error recorded on the device. -/
theorem dev_get_short_circuit (writeOk : Bool) (readRes : Option (List Nat))
    (d : Dev) :
    (writeOk = false →
      dev_get writeOk readRes d =
        ((false, none),
          { error := some "ERROR: Socket send error.", reads := d.reads }) ∧
      (dev_get writeOk readRes d).2.reads = d.reads) ∧
    (∀ v : List Nat, writeOk = true → readRes = some v →
      dev_get writeOk readRes d =
        ((true, some v), { error := none, reads := d.reads + 1 })) ∧
    (writeOk = true → readRes = none →
      dev_get writeOk readRes d =
        ((false, none),
          { error := some "ERROR: socket recieve error.",
            reads := d.reads + 1 })) := by
  refine ⟨?_, ?_, ?_⟩
  · intro h
    subst h
    constructor
    · simp [dev_get, dev_write]
    · simp [dev_get, dev_write]
  · intro v hw hr
    subst hw; subst hr
    simp [dev_get, dev_write, dev_read]
  · intro hw hr
    subst hw; subst hr
    simp [dev_get, dev_write, dev_read]

/-- Witness for C10: a failed write on a fresh device returns
`(False, None)` with no read attempted. -/
theorem dev_get_short_circuit_witness :
    dev_get false (some [48]) { error := none, reads := 0 } =
      ((false, none), { error := some "ERROR: Socket send error.", reads := 0 }) :=
  ((dev_get_short_circuit false (some [48]) { error := none, reads := 0 }).1 rfl).1

end Scpi

namespace Scpi

/-- Whitespace test on characters, matching what Python `str.strip()`
removes for the ASCII responses the instruments send. -/
def isSpaceChar (c : Char) : Bool := isSpaceByte c.toNat

/-- Python `str.strip()`: whitespace dropped from both ends. -/
def stripChars (l : List Char) : List Char :=
  ((l.dropWhile isSpaceChar).reverse.dropWhile isSpaceChar).reverse

/-- Python `str.split(',')` on a character list: splits at every comma and
keeps empty fields, so the result always has one more entry than there are
commas. -/
def splitComma : List Char → List (List Char)
  | [] => [[]]
  | c :: rest =>
    let r := splitComma rest
    if c = ',' then [] :: r
    else
      match r with
      | [] => [[c]]
      | g :: gs => (c :: g) :: gs

/-- Embedding of the error-queue response decoding used by both
`send_commands` implementations:
`self.get_error()[1].decode().split(',')[1].strip()`.  `none` models the
`IndexError` a response without a comma would raise (and, upstream, the
`AttributeError` of a failed query), both of which are uncaught. -/
def extract_error (resp : String) : Option String :=
  ((splitComma resp.data)[1]?).map fun l => String.mk (stripChars l)

/-- The 34465A "no error" sentinel: the quoted string `"No error"`, compared
for exact equality (`error != '"No error"'`). -/
def noErrorSentinel : String := "\"No error\""

/-- Decide whether `needle` is a prefix of the second list. -/
def startsWithSeq : List Char → List Char → Bool
  | [], _ => true
  | _ :: _, [] => false
  | a :: as, b :: bs => a == b && startsWithSeq as bs

/-- Decide whether `needle` occurs as a contiguous subsequence. -/
def containsSeq (needle : List Char) : List Char → Bool
  | [] => startsWithSeq needle []
  | b :: rest => startsWithSeq needle (b :: rest) || containsSeq needle rest

/-- The DMM6500 sentinel test is Python `"No error" in error`: a substring
check rather than exact equality. -/
def containsNoError (e : String) : Bool := containsSeq "No error".data e.data

/-- Embedding of the module-level `send_commands(meter, cmds)` of
scpi_module_34465a.py (lines 501–514).  `writeOk cmd` is whether the socket
send of `cmd` succeeds and `errResp cmd` the raw text answered by the
`SYSTem:ERRor?` query issued right after `cmd`.  The result is the list of
sequence commands actually written to the socket, paired with the message
of the raised `CommandError` (`none` when the whole sequence passed). -/
def send_commands (writeOk : String → Bool) (errResp : String → String) :
    List String → List String × Option String
  | [] => ([], none)
  | cmd :: rest =>
    if writeOk cmd = false then
      ([], some "CommandError: Device write error in send_commands()")
    else
      match extract_error (errResp cmd) with
      | none => ([cmd], some "uncaught exception decoding the error-queue response")
      | some e =>
        if e = noErrorSentinel then
          let r := send_commands writeOk errResp rest
          (cmd :: r.1, r.2)
        else
          ([cmd],
            some ("CommandError: Command Error in send_commands: " ++ cmd ++ "," ++ e))

/-- The buffer-clear command the DMM6500 driver writes before every
sequence command. -/
def clearCmd : String := ":SYSTem:CLEar"

/-- Embedding of `MultimeterDMM6500.send_commands` (scpi_module_DMM6500.py,
lines 135–153).  Before each command it writes `:SYSTem:CLEar` (return
value ignored), then the command itself; the error check accepts any
response whose second comma-field contains the substring `No error`.  The
first component lists every string written to the socket, in order. -/
def dmm_send_commands (writeOk : String → Bool) (errResp : String → String) :
    List String → List String × Option String
  | [] => ([], none)
  | cmd :: rest =>
    let clearSent := if writeOk clearCmd then [clearCmd] else []
    if writeOk cmd = false then
      (clearSent, some "CommandError: socket send error")
    else
      match extract_error (errResp cmd) with
      | none => (clearSent ++ [cmd], some "uncaught exception decoding the error-queue response")
      | some e =>
        if containsNoError e = true then
          let r := dmm_send_commands writeOk errResp rest
          (clearSent ++ cmd :: r.1, r.2)
        else
          (clearSent ++ [cmd],
            some ("CommandError: Command Error in send_commands: " ++ cmd ++ "," ++ e))

/-- Socket trace the DMM6500 driver produces for a run of clean commands:
each command preceded by its buffer clear. -/
def dmm_trace (pre : List String) : List String :=
  pre.foldr (fun c acc => clearCmd :: c :: acc) []

/-- Helper: commands whose error query answers the exact sentinel are
written and passed over by the 34465A `send_commands`. -/
theorem send_commands_clean_run (writeOk : String → Bool)
    (errResp : String → String) :
    ∀ (pre l : List String),
      (∀ c ∈ pre, writeOk c = true ∧ extract_error (errResp c) = some noErrorSentinel) →
      send_commands writeOk errResp (pre ++ l) =
        (pre ++ (send_commands writeOk errResp l).1,
          (send_commands writeOk errResp l).2) := by
  intro pre
  induction pre with
  | nil => intro l _; simp
  | cons c pre ih =>
    intro l hpre
    have hc := hpre c (List.mem_cons_self c pre)
    have hrest := fun x hx => hpre x (List.mem_cons_of_mem c hx)
    rw [List.cons_append]
    simp only [send_commands, hc.1, hc.2, ih l hrest]
    simp

/-- Helper: commands whose error query contains the `No error` substring
are written (with their preceding buffer clear) and passed over by the
DMM6500 `send_commands`. -/
theorem dmm_send_commands_clean_run (writeOk : String → Bool)
    (errResp : String → String) (hclear : writeOk clearCmd = true) :
    ∀ (pre l : List String),
      (∀ c ∈ pre, writeOk c = true ∧
        ∃ ec, extract_error (errResp c) = some ec ∧ containsNoError ec = true) →
      dmm_send_commands writeOk errResp (pre ++ l) =
        (dmm_trace pre ++ (dmm_send_commands writeOk errResp l).1,
          (dmm_send_commands writeOk errResp l).2) := by
  intro pre
  induction pre with
  | nil => intro l _; simp [dmm_trace]
  | cons c pre ih =>
    intro l hpre
    have hc := hpre c (List.mem_cons_self c pre)
    obtain ⟨ec, hec, hecNoErr⟩ := hc.2
    have hrest := fun x hx => hpre x (List.mem_cons_of_mem c hx)
    rw [List.cons_append]
    simp only [dmm_send_commands, hclear, hc.1, hec, hecNoErr, ih l hrest]
    simp [dmm_trace]

/-- C1: along the checked path, when each command in `pre` passes its
error-queue check and the error query issued after `cmd` answers text other
than the "no error" sentinel, `send_commands` raises `CommandError` naming
`cmd` and the instrument message, having written exactly the commands up to
and including `cmd` — none of `rest` is sent.  First conjunct: the 34465A
module-level `send_commands` (exact-equality sentinel); second conjunct:
`MultimeterDMM6500.send_commands` (substring sentinel, with the interleaved
`:SYSTem:CLEar` writes). -/
theorem send_commands_abort_on_first_error (writeOk : String → Bool)
    (errResp : String → String) (pre rest : List String) (cmd e : String) :
    ((∀ c ∈ pre, writeOk c = true ∧ extract_error (errResp c) = some noErrorSentinel) →
      writeOk cmd = true →
      extract_error (errResp cmd) = some e →
      e ≠ noErrorSentinel →
      send_commands writeOk errResp (pre ++ cmd :: rest) =
        (pre ++ [cmd],
          some ("CommandError: Command Error in send_commands: " ++ cmd ++ "," ++ e))) ∧
    ((∀ c ∈ pre, writeOk c = true ∧
        ∃ ec, extract_error (errResp c) = some ec ∧ containsNoError ec = true) →
      writeOk clearCmd = true →
      writeOk cmd = true →
      extract_error (errResp cmd) = some e →
      containsNoError e = false →
      dmm_send_commands writeOk errResp (pre ++ cmd :: rest) =
        (dmm_trace pre ++ [clearCmd, cmd],
          some ("CommandError: Command Error in send_commands: " ++ cmd ++ "," ++ e))) := by
  constructor
  · intro hpre hw hx hne
    rw [send_commands_clean_run writeOk errResp pre (cmd :: rest) hpre]
    simp [send_commands, hw, hx, hne]
  · intro hpre hclear hw hx hne
    rw [dmm_send_commands_clean_run writeOk errResp hclear pre (cmd :: rest) hpre]
    simp [dmm_send_commands, hclear, hw, hx, hne]

/-- Witness for C1: sequence `[*RST, SAMP:COUNT 100, INIT]` where the
error query after `SAMP:COUNT 100` answers a range error — only the first
two commands are sent, `INIT` is not, and the `CommandError` names the
failing command and the instrument message. -/
theorem send_commands_abort_on_first_error_witness :
    send_commands (fun _ => true)
      (fun c => if c = "SAMP:COUNT 100" then "-222,\"Data out of range\""
        else "+0,\"No error\"")
      (["*RST"] ++ "SAMP:COUNT 100" :: ["INIT"]) =
      (["*RST"] ++ ["SAMP:COUNT 100"],
        some ("CommandError: Command Error in send_commands: " ++ "SAMP:COUNT 100"
          ++ "," ++ "\"Data out of range\"")) :=
  (send_commands_abort_on_first_error (fun _ => true)
    (fun c => if c = "SAMP:COUNT 100" then "-222,\"Data out of range\""
      else "+0,\"No error\"")
    ["*RST"] ["INIT"] "SAMP:COUNT 100" "\"Data out of range\"").1
    (by decide) (by decide) (by decide) (by decide)

end Scpi

namespace Scpi

/-- Embedding of the reassembly loop of `Multimeter34465a.get_screen_dump`
(scpi_module_34465a.py, lines 255–257):
`while len(buff) < file_size: buff = buff + self.sock.recv(256)`.
`chunks` are the byte strings the successive `recv` calls return; `none`
models a read that would block forever because the chunks ran out. -/
def reassemble (file_size : Nat) : List (List Nat) → List Nat → Option (List Nat)
  | [], buff => if file_size ≤ buff.length then some buff else none
  | c :: cs, buff =>
    if file_size ≤ buff.length then some buff
    else reassemble file_size cs (buff ++ c)

/-- Embedding of the decode path of `Multimeter34465a.get_screen_dump`
(scpi_module_34465a.py, lines 225–264).  The first `recv` result is parsed
in place: `num_digits = int(chr(buff[1]))` (`int` of an absent or non-digit
byte raises, modelled `none`), `file_size = int(buff[2:num_digits+2])`,
the header is stripped, the loop tops the buffer up to `file_size` bytes,
and the function finally writes `buff[0:-1]`, unconditionally dropping the
last byte of whatever the loop accumulated. -/
def get_screen_dump : List (List Nat) → Option (List Nat)
  | [] => none
  | first :: rest =>
    match pyInt? (pySlice first 1 2) with
    | none => none
    | some nd =>
      match pyInt? (pySlice first 2 (nd.toNat + 2)) with
      | none => none
      | some fs =>
        match reassemble fs.toNat rest (first.drop (2 + nd.toNat)) with
        | none => none
        | some b => some (b.take (b.length - 1))

/-- Helper: `dropWhile` is the identity when no element satisfies the
predicate. -/
theorem dropWhile_eq_self_of_none {p : Nat → Bool} :
    ∀ l : List Nat, (∀ b ∈ l, p b = false) → l.dropWhile p = l := by
  intro l h
  cases l with
  | nil => rfl
  | cons a t =>
    rw [List.dropWhile_cons, h a (List.mem_cons_self a t)]
    simp

/-- Helper: a byte list containing no whitespace is untouched by the
Python-style strip. -/
theorem pyStripBytes_eq_self (l : List Nat)
    (h : ∀ b ∈ l, isSpaceByte b = false) : pyStripBytes l = l := by
  unfold pyStripBytes
  rw [dropWhile_eq_self_of_none l h,
    dropWhile_eq_self_of_none l.reverse (fun b hb => h b (List.mem_reverse.mp hb)),
    List.reverse_reverse]

/-- Helper: digit bytes are not whitespace. -/
theorem isDigitByte_not_space (b : Nat) (h : isDigitByte b = true) :
    isSpaceByte b = false := by
  simp [isDigitByte] at h
  simp [isSpaceByte]
  omega

/-- Helper: a pure digit run passes the underscore-aware tail check. -/
theorem pyIntTail_of_digits :
    ∀ l : List Nat, (∀ b ∈ l, isDigitByte b = true) → pyIntTail l = true := by
  intro l
  induction l with
  | nil => intro _; rfl
  | cons b t ih =>
    intro h
    have hb := h b (List.mem_cons_self b t)
    have hb95 : (b == 95) = false := by
      simp [isDigitByte] at hb
      simp
      omega
    cases t with
    | nil => simp [pyIntTail, hb]
    | cons c r =>
      rw [pyIntTail, hb95]
      simp [hb, ih (fun x hx => h x (List.mem_cons_of_mem b hx))]

/-- Helper: Python `int()` of a nonempty all-digit byte run yields its
decimal value. -/
theorem pyInt?_of_digits (l : List Nat) (hne : l ≠ [])
    (h : ∀ b ∈ l, isDigitByte b = true) :
    pyInt? l = some (digitsToNat l : Int) := by
  have hstrip : pyStripBytes l = l :=
    pyStripBytes_eq_self l (fun b hb => isDigitByte_not_space b (h b hb))
  obtain ⟨a, t, rfl⟩ : ∃ a t, l = a :: t := by
    cases l with
    | nil => exact absurd rfl hne
    | cons a t => exact ⟨a, t, rfl⟩
  have ha := h a (List.mem_cons_self a t)
  have ha48 : 48 ≤ a ∧ a ≤ 57 := by
    simpa [isDigitByte] using ha
  have h43 : (a == 43) = false := by simp; omega
  have h45 : (a == 45) = false := by simp; omega
  have hdigits : pyIntDigits (a :: t) = true := by
    rw [pyIntDigits]
    simp [ha, pyIntTail_of_digits t (fun x hx => h x (List.mem_cons_of_mem a hx))]
  have hfilter : (a :: t).filter (· != 95) = a :: t :=
    List.filter_eq_self.mpr (fun x hx => by
      have := h x hx
      simp [isDigitByte] at this
      simp
      omega)
  rw [pyInt?, hstrip]
  simp [h43, h45, hdigits, hfilter]

/-- Helper: Python `int()` of the single digit-count byte `48 + d`. -/
theorem pyInt?_digit_byte (d : Nat) (hd : d ≤ 9) :
    pyInt? [48 + d] = some (d : Int) := by
  interval_cases d <;> rfl

/-- Helper: when the chunk boundaries never land exactly on the declared
length, the reassembly loop exits only once it holds the full stream
(payload plus terminator). -/
theorem reassemble_exact (L : Nat) (t : List Nat) (ht : t.length = L + 1) :
    ∀ (cs : List (List Nat)) (buff : List Nat),
      buff ++ cs.flatten = t →
      (∀ k, k ≤ cs.length →
        buff.length + (((cs.take k).map List.length).sum) ≠ L) →
      reassemble L cs buff = some t := by
  intro cs
  induction cs with
  | nil =>
    intro buff hbuff _
    simp only [List.flatten_nil, List.append_nil] at hbuff
    subst hbuff
    rw [reassemble, if_pos (by omega)]
  | cons c cs ih =>
    intro buff hbuff hk
    by_cases h : L ≤ buff.length
    · have h0 := hk 0 (by omega)
      simp only [List.take_zero, List.map_nil, List.sum_nil, Nat.add_zero] at h0
      have hlen : buff.length + (c :: cs).flatten.length = L + 1 := by
        have := congrArg List.length hbuff
        simpa [List.length_append, ht] using this
      have hflat : (c :: cs).flatten.length = 0 := by omega
      have hbt : buff = t := by
        rw [List.length_eq_zero] at hflat
        simpa [hflat] using hbuff
      subst hbt
      rw [reassemble, if_pos h]
    · rw [reassemble, if_neg h]
      apply ih (buff ++ c)
      · simpa [List.append_assoc] using hbuff
      · intro k hk2
        have := hk (k + 1) (by simpa using Nat.succ_le_succ hk2)
        simp only [List.take_succ_cons, List.map_cons, List.sum_cons] at this
        simp only [List.length_append]
        omega

end Scpi

namespace Scpi

/-- C2 counterexample: block `#13abc\n` (declared length 3, payload `abc`)
split so that the first read delivers the header plus the full payload and
the terminator arrives in a second read.  The loop exits at the declared
length before the terminator is read, and `buff[0:-1]` then strips the
final payload byte: the decode returns `ab`, not the payload `abc`. -/
theorem get_screen_dump_boundary_loses_byte :
    get_screen_dump [[35, 49, 51, 97, 98, 99], [10]] = some [97, 98] ∧
    some [97, 98] ≠ some ([97, 98, 99] : List Nat) := by
  refine ⟨rfl, by decide⟩

/-- C2 amended: for every definite-length block
`#<D><L-digits><payload><newline>` with `D` in 1..9 and every split of the
block across successive socket reads such that (a) the first read contains
the whole header and (b) no read boundary falls exactly at the end of the
payload (no prefix of reads sums to exactly header-plus-payload bytes, so
the read that completes the declared length also carries the trailing
terminator), decoding the header and reassembling yields exactly the
original payload with the terminator stripped. -/
theorem get_screen_dump_exact (D : Nat) (digits p c0 : List Nat)
    (cs : List (List Nat))
    (hD1 : 1 ≤ D) (hD9 : D ≤ 9)
    (hdigLen : digits.length = D)
    (hdig : ∀ b ∈ digits, isDigitByte b = true)
    (hval : digitsToNat digits = p.length)
    (hjoin : c0 ++ cs.flatten = 35 :: (48 + D) :: (digits ++ (p ++ [10])))
    (hc0 : 2 + D ≤ c0.length)
    (hbound : ∀ k, k ≤ cs.length →
      c0.length + (((cs.take k).map List.length).sum) ≠ 2 + D + p.length) :
    get_screen_dump (c0 :: cs) = some p := by
  have hc0eq : c0 = (35 :: (48 + D) :: (digits ++ (p ++ [10]))).take c0.length := by
    rw [← hjoin]
    exact (List.take_left c0 cs.flatten).symm
  have htake2 : c0.take 2 = [35, 48 + D] := by
    rw [hc0eq, List.take_take, min_eq_left (by omega)]
    rfl
  have hslice1 : pySlice c0 1 2 = [48 + D] := by
    unfold pySlice
    rw [htake2]
    rfl
  have hint1 : pyInt? (pySlice c0 1 2) = some (D : Int) := by
    rw [hslice1]
    exact pyInt?_digit_byte D hD9
  have htakeD2 : c0.take (D + 2) = 35 :: (48 + D) :: digits := by
    rw [hc0eq, List.take_take, min_eq_left (by omega)]
    rw [show D + 2 = (D + 1) + 1 from rfl]
    rw [List.take_succ_cons, List.take_succ_cons, List.take_append_eq_append_take]
    simp [← hdigLen]
  have hslice2 : pySlice c0 2 (D + 2) = digits := by
    unfold pySlice
    rw [htakeD2]
    rfl
  have hdigne : digits ≠ [] := by
    intro hnil
    rw [hnil] at hdigLen
    simp at hdigLen
    omega
  have hint2 : pyInt? (pySlice c0 2 (D + 2)) = some (p.length : Int) := by
    rw [hslice2, pyInt?_of_digits digits hdigne hdig, hval]
  have hdropBlock :
      (35 :: (48 + D) :: (digits ++ (p ++ [10]))).drop (2 + D) = p ++ [10] := by
    rw [Nat.add_comm 2 D]
    rw [show D + 2 = (D + 1) + 1 from rfl]
    rw [List.drop_succ_cons, List.drop_succ_cons, List.drop_append_eq_append_drop]
    simp [← hdigLen]
  have hbuffjoin : c0.drop (2 + D) ++ cs.flatten = p ++ [10] := by
    have h1 := congrArg (List.drop (2 + D)) hjoin
    rw [List.drop_append_eq_append_drop] at h1
    rw [Nat.sub_eq_zero_of_le hc0, List.drop_zero] at h1
    rw [h1, hdropBlock]
  have hbuflen : (c0.drop (2 + D)).length = c0.length - (2 + D) :=
    List.length_drop (2 + D) c0
  have hreass : reassemble p.length cs (c0.drop (2 + D)) = some (p ++ [10]) := by
    apply reassemble_exact p.length (p ++ [10]) (by simp) cs (c0.drop (2 + D)) hbuffjoin
    intro k hk
    rw [hbuflen]
    have := hbound k hk
    omega
  rw [get_screen_dump]
  simp only [hint1, Int.toNat_natCast, hint2, hreass]
  simp [List.take_append_eq_append_take]

/-- Witness for C2 amended: block `#13abc\n` split as
`[#13a, bc\n]` — the boundary is inside the payload, so the decode returns
the exact payload `abc`. -/
theorem get_screen_dump_exact_witness :
    get_screen_dump [[35, 49, 51, 97], [98, 99, 10]] = some [97, 98, 99] :=
  get_screen_dump_exact 1 [51] [97, 98, 99] [35, 49, 51, 97] [[98, 99, 10]]
    (by decide) (by decide) (by decide) (by decide) (by decide) (by decide)
    (by decide) (by decide)

end Scpi

namespace Scpi

/-- Length of Python `s.split(',')`: one more than the number of commas. -/
def countSplitComma (l : List Nat) : Nat := (l.filter (· == 44)).length + 1

/-- Embedding of the block-processing tail of the `read_data` loop
(scpi_module_34465a.py, lines 418–438) for a non-empty received block:
`parse_block_header` runs first (its `ValueError` propagates), the
declared/actual byte counts are compared — a mismatch only emits
`LOGGER.error('Byte count error...')`, recorded in the first component —
and unless the declared length is zero the block's comma-separated samples
(`block.decode().strip()[data_start:].split(',')`, ASCII bytes assumed) are
counted into the dataset regardless of the comparison's outcome.  The
second component is the number of samples appended. -/
def process_block (block : List Nat) : Except String (Bool × Nat) :=
  match parse_block_header block with
  | Except.error e => Except.error e
  | Except.ok (data_start, num_expected, num_actual) =>
    let mismatchLogged := num_expected != (num_actual : Int)
    if num_expected != 0 then
      Except.ok (mismatchLogged,
        countSplitComma ((pyStripBytes block).drop data_start))
    else
      Except.ok (mismatchLogged, 0)

/-- C8 counterexample: block `#15abc\n` declares 5 payload bytes but only 3
arrive.  `process_block` notices the mismatch (flag `true`) yet still
accepts the block and appends its 1 sample — no framing error results. -/
theorem process_block_mismatch_not_rejected :
    parse_block_header [35, 49, 53, 97, 98, 99, 10] = Except.ok (3, 5, 3) ∧
    process_block [35, 49, 53, 97, 98, 99, 10] = Except.ok (true, 1) := by
  refine ⟨rfl, rfl⟩

/-- C8 amended: after full reassembly the code does compare the declared
byte length against the payload actually received, but a difference only
produces a logged byte-count error: the block is still accepted, and
whenever the declared length is nonzero its samples are appended to the
dataset exactly as for a matching block — `process_block` never returns an
error for a mismatched, parseable block. -/
theorem process_block_logs_and_accepts (block : List Nat) (ds : Nat)
    (ne : Int) (na : Nat)
    (h : parse_block_header block = Except.ok (ds, ne, na))
    (hne0 : ne ≠ 0) :
    process_block block =
      Except.ok (ne != (na : Int),
        countSplitComma ((pyStripBytes block).drop ds)) ∧
    ∀ emsg : String, process_block block ≠ Except.error emsg := by
  have hb : (ne != 0) = true := by
    simp [bne_iff_ne]
    exact hne0
  constructor
  · rw [process_block, h]
    simp [hb]
  · intro emsg
    rw [process_block, h]
    simp [hb]

/-- Witness for C8 amended at the mismatched block `#15abc\n`. -/
theorem process_block_logs_and_accepts_witness :
    process_block [35, 49, 53, 97, 98, 99, 10] = Except.ok (true, 1) ∧
    ∀ emsg : String,
      process_block [35, 49, 53, 97, 98, 99, 10] ≠ Except.error emsg :=
  process_block_logs_and_accepts [35, 49, 53, 97, 98, 99, 10] 3 5 3 rfl
    (by decide)

end Scpi
